import Mathlib

/-!
Verification development for the mage-console supervisor/worker core.

The definitions below are a shallow embedding of the repository's code:

* `src/debug.js` — the worker debug-port counter;
* `src/index.js` — the supervisor (cluster exit handler, control-message
  handler, debugger proxy) and the worker-side log/prompt coordinator and
  history persistence.

Machine integers are modelled as `Nat` (the counters involved never reach
overflow territory and JavaScript numbers are exact on this range); the
JavaScript falsy test `!workerDebugPort` on a number is modelled as `= 0`.
Event-driven callback chains are modelled as explicit effect lists, and
process-wide mutable state (the tracked debugger-connection array, the
debug-port counter) as explicit state passing.
-/

namespace MageConsole

/-! ## Debug port counter (src/debug.js, lines 46-58) -/

/-- Initial value of `workerPort` in src/debug.js: `let workerPort = 2501`. -/
def initialWorkerPort : Nat := 2501

/-- Source: `exports.getWorkerDebugPort = function () { return workerPort; }`. -/
def getWorkerDebugPort (workerPort : Nat) : Nat := workerPort

/-- Source: `exports.incrementDebugPort`, i.e. `workerPort += 1` followed by
`return this.getWorkerDebugPort()`. Returns (returned port value, new counter
state). -/
def incrementDebugPort (workerPort : Nat) : Nat × Nat :=
  let w := workerPort + 1
  (getWorkerDebugPort w, w)

/-- Counter state after `n` calls to `incrementDebugPort`, starting from the
initial module state. -/
def workerPortAfter : Nat → Nat
  | 0 => initialWorkerPort
  | n + 1 => (incrementDebugPort (workerPortAfter n)).2

/-! ## Debugger proxy connections (src/index.js, lines 383-430) -/

/-- One tracked debugger proxy pair `{ localSocket, debuggerConnection }`:
whether each socket is still open, and whether the two are piped together. -/
structure ProxyPair where
  localOpen : Bool
  workerOpen : Bool
  piped : Bool
  deriving DecidableEq, Repr

/-- A freshly created proxy pair: both sockets open and piped bidirectionally
(src/index.js, lines 410-413, 429). -/
def freshPair : ProxyPair := ⟨true, true, true⟩

/-- The function `closeDebuggerConnection` (src/index.js, lines 385-397):
unpipe both directions, unref, end and destroy both sockets. -/
def closeDebuggerConnection (p : ProxyPair) : ProxyPair :=
  { p with localOpen := false, workerOpen := false, piped := false }

/-- The function `closeDebuggerConnections` (src/index.js, lines 398-401):
each tracked pair is closed via `forEach(closeDebuggerConnection)` and the
tracked array is reset to empty. Returns (the per-pair close operations
performed, the new tracked array). -/
def closeDebuggerConnections (conns : List ProxyPair) : List ProxyPair × List ProxyPair :=
  (conns.map closeDebuggerConnection, [])

/-- Close the tracked pair at position `i`, leaving every other pair alone.
This is the state effect of `closeDebuggerConnection({ localSocket,
debuggerConnection })` when invoked from a per-pair error handler. -/
def modifyPair : List ProxyPair → Nat → List ProxyPair
  | [], _ => []
  | p :: ps, 0 => closeDebuggerConnection p :: ps
  | p :: ps, n + 1 => p :: modifyPair ps n

/-- Log events emitted by the supervisor handlers. -/
inductive LogEvent where
  | warning (msg : String)
  deriving DecidableEq, Repr

/-- The `debuggerConnection.on('error')` handler (src/index.js, lines 415-422)
acting on the tracked pair at position `i`: `ECONNREFUSED` returns early
(no log, no teardown); any other code logs a warning and closes that pair. -/
def debuggerErrorHandler (code : String) (conns : List ProxyPair) (i : Nat) :
    List LogEvent × List ProxyPair :=
  if code = "ECONNREFUSED" then
    ([], conns)
  else
    ([LogEvent.warning "Error raised on the connection to the worker debug port"],
     modifyPair conns i)

/-- Result of the debug-proxy `net.createServer` connection handler. -/
structure ProxyAcceptResult where
  incomingEnded : Bool
  workerConnection : Option Nat
  tracked : List ProxyPair
  deriving DecidableEq, Repr

/-- The debug-proxy connection handler (src/index.js, lines 403-430): if the
worker debug port is falsy (0 for a number), end the incoming socket and
change nothing; otherwise dial the worker port, pipe both ways and push the
pair onto the tracked array. -/
def proxyConnectionHandler (workerDebugPort : Nat) (conns : List ProxyPair) :
    ProxyAcceptResult :=
  if workerDebugPort = 0 then
    ⟨true, none, conns⟩
  else
    ⟨false, some workerDebugPort, conns ++ [freshPair]⟩

/-! ## Supervisor lifecycle handlers (src/index.js, lines 314-367 and 436-461)

The event-driven handlers are embedded as explicit effect lists: each handler
body becomes the list of side effects it performs, in program order. -/

/-- Side effects performed by the supervisor handlers. -/
inductive Effect where
  | dropStartupTimeout
  | emitWorkerOffline (managedExit : Bool)
  | logDebug (msg : String)
  | logNotice (msg : String)
  | logWarning (msg : String)
  | consoleLog (msg : String)
  | createWorker
  | installSigintKill
  | removeSigintKill
  | startWatcher
  | closeWatcher
  | stdinResume
  | stdinPause
  | stdinOnceData
  | removeKeypressListener
  | removeExitListeners
  | killWorker
  | closeAllDebuggerConnections
  | mageExit
  | processExit
  deriving DecidableEq, Repr

/-- The `cluster.on('exit')` handler (src/index.js, lines 316-366): the effects
it performs synchronously, before any awaited event. When `managedExit` is
false it immediately creates a replacement worker; when `managedExit` is true
it warns and installs a file watcher and a one-shot keypress listener. -/
def clusterExitImmediate (managedExit : Bool) : List Effect :=
  [Effect.dropStartupTimeout, Effect.emitWorkerOffline managedExit] ++
  (if !managedExit then
    [Effect.logDebug "Reloading", Effect.createWorker]
  else
    [Effect.consoleLog "",
     Effect.logWarning "------------------------------------------------------",
     Effect.logWarning "Worker down, save a file or press any key to reload...",
     Effect.logWarning "------------------------------------------------------",
     Effect.installSigintKill,
     Effect.startWatcher,
     Effect.stdinResume,
     Effect.stdinOnceData])

/-- The `onKeyPress` continuation of the stalled exit handler
(src/index.js, lines 342-352). -/
def onKeyPressEffects : List Effect :=
  [Effect.removeSigintKill, Effect.closeWatcher, Effect.stdinPause,
   Effect.createWorker]

/-- The file-watch continuation of the stalled exit handler
(src/index.js, lines 354-361). -/
def onFileChangedEffects (event name : String) : List Effect :=
  [Effect.removeKeypressListener, Effect.stdinPause,
   Effect.logDebug ("File " ++ name ++ " was " ++ event ++ "d, reloading"),
   Effect.createWorker]

/-- Which of the two awaited events fires first while the exit handler stalls. -/
inductive StallResolution where
  | keypress
  | fileChanged (event name : String)
  deriving Repr

/-- Full effect list of one worker-exit episode: the handler's synchronous
effects, followed (in the stalled case only) by the continuation of whichever
awaited event fired first. -/
def exitCycleEffects (managedExit : Bool) (w : StallResolution) : List Effect :=
  clusterExitImmediate managedExit ++
  (if managedExit then
    match w with
    | StallResolution.keypress => onKeyPressEffects
    | StallResolution.fileChanged event name => onFileChangedEffects event name
  else [])

/-- The `reload` case of the `cluster.on('message')` handler
(src/index.js, lines 443-447). -/
def reloadMessageEffects : List Effect :=
  [Effect.closeAllDebuggerConnections, Effect.logNotice "reloading worker",
   Effect.killWorker]

/-- The `shutdown` case of the `cluster.on('message')` handler
(src/index.js, lines 448-459): synchronous part. -/
def shutdownMessageEffects : List Effect :=
  [Effect.logNotice "shutting down", Effect.removeExitListeners,
   Effect.killWorker]

/-- The `worker.once('exit')` continuation registered by the shutdown case
(src/index.js, lines 451-455). -/
def shutdownWorkerExitEffects : List Effect :=
  [Effect.closeAllDebuggerConnections, Effect.mageExit, Effect.processExit]

/-- Full effect list of a handled `shutdown` message: the handler's
synchronous effects, then — once the killed worker has exited — the
registered exit continuation. -/
def shutdownCycleEffects : List Effect :=
  shutdownMessageEffects ++ shutdownWorkerExitEffects

/-- Modelled from the spec: the worker-spawn wiring that assigns the debug
port lives in the repository's bin scripts, which are not under src/ (src
only declares `incrementDebugPort`, src/debug.js lines 55-58, without a
caller). Per spec section 4.5, worker spawn assigns the next debug port in
sequence, i.e. it calls `incrementDebugPort` and uses the returned value.
Returns (assigned port, new counter state). -/
def spawnWorkerPort (workerPort : Nat) : Nat × Nat :=
  incrementDebugPort workerPort

/-- State effect of one supervisor effect on the tracked debugger-connection
array: only `closeAllDebuggerConnections` touches it. -/
def applyEffect (conns : List ProxyPair) : Effect → List ProxyPair
  | Effect.closeAllDebuggerConnections => (closeDebuggerConnections conns).2
  | _ => conns

/-- Tracked debugger-connection array after running a list of effects. -/
def trackedAfter (conns : List ProxyPair) : List Effect → List ProxyPair
  | [] => conns
  | e :: es => trackedAfter (applyEffect conns e) es

/-! ## Log/prompt coordinator (src/index.js, lines 204-265) -/

/-- The erase blanks: `(new Array(lineContent.length + promptLength + 1)).join(' ')`
(src/index.js, line 260) produces `lineLen + promptLen` spaces. -/
def wipeLine (lineLen promptLen : Nat) : String :=
  String.mk (List.replicate (lineLen + promptLen) ' ')

/-- The function `schedulePrompt` (src/index.js, lines 235-247): when not closing, cancel
any previously scheduled redraw timer and schedule a new one after 100 time
units. Returns (new pending timer delay, whether a previous timer was
cancelled). -/
def schedulePrompt (closing : Bool) (scheduled : Option Nat) : Option Nat × Bool :=
  if closing then (scheduled, false)
  else (some 100, scheduled.isSome)

/-- Result of one intercepted diagnostic line. -/
structure LineResult where
  writes : List String
  scheduled : Option Nat
  cancelledPrevious : Bool
  deriving DecidableEq, Repr

/-- The `readline.on('line')` handler (src/index.js, lines 249-265): when
closing, pass the line through; otherwise write the erase sequence, write the
line, and schedule the debounced prompt redraw. -/
def onLine (closing : Bool) (prompt line : String) (scheduled : Option Nat)
    (data : String) : LineResult :=
  if closing then
    ⟨[data ++ "\n"], scheduled, false⟩
  else
    let sp := schedulePrompt closing scheduled
    ⟨["\r" ++ wipeLine line.length prompt.length ++ "\r", data ++ "\n"],
     sp.1, sp.2⟩

/-- Models the scheduled redraw: `repl.displayPrompt(true)` (src/index.js,
line 245) rewrites the prompt followed by the current buffered input line
(Node readline behaviour, an external collaborator of the repository). -/
def displayPromptOutput (prompt line : String) : String :=
  prompt ++ line

/-! ## History persistence (src/index.js, lines 111-113 and 181-187)

`saveHistory` writes `JSON.stringify(history)` for an array of strings;
loading (`require(HISTORY_FILE)`) parses the file content as JSON. The
stringifier below follows ECMA-262 `JSON.stringify` on arrays of strings
(named escapes for `"`, `\`, backspace, tab, newline, form feed, carriage
return; `\u00xx` with lowercase hex for other control characters; everything
else verbatim; no added whitespace). The parser is a character-level state
machine for JSON texts denoting arrays of strings, accepting the JSON string
grammar (all named escapes including `\/`, 4-digit `\u` escapes with either
letter case, surrounding JSON whitespace); it rejects anything that
`JSON.parse` rejects on this fragment. Surrogate-pair `\u` escapes are not
combined (Lean characters are Unicode scalar values); `JSON.stringify` never
emits them. -/

/-- Lowercase hex digit of a value below 16. -/
def hexDigit (n : Nat) : Char :=
  if n < 10 then Char.ofNat (48 + n) else Char.ofNat (97 + n - 10)

/-- Numeric value of a hex digit character, either letter case. -/
def hexVal (c : Char) : Option Nat :=
  if 48 ≤ c.toNat ∧ c.toNat ≤ 57 then some (c.toNat - 48)
  else if 97 ≤ c.toNat ∧ c.toNat ≤ 102 then some (c.toNat - 97 + 10)
  else if 65 ≤ c.toNat ∧ c.toNat ≤ 70 then some (c.toNat - 65 + 10)
  else none

/-- Value of a list of hex digit characters, most significant first. -/
def hexListVal (l : List Char) : Nat :=
  l.foldl (fun n c => n * 16 + (hexVal c).getD 0) 0

/-- Escaping of one character inside a string literal, as `JSON.stringify`
performs it. -/
def escapeChar (c : Char) : List Char :=
  if c = '"' then [ '\\', '"' ]
  else if c = '\\' then [ '\\', '\\' ]
  else if c = '\x08' then [ '\\', 'b' ]
  else if c = '\t' then [ '\\', 't' ]
  else if c = '\n' then [ '\\', 'n' ]
  else if c = '\x0c' then [ '\\', 'f' ]
  else if c = '\r' then [ '\\', 'r' ]
  else if c.toNat < 32 then
    [ '\\', 'u', '0', '0', hexDigit (c.toNat / 16), hexDigit (c.toNat % 16) ]
  else [c]

/-- Escaping of a whole string body, as `JSON.stringify` performs it. -/
def escString : List Char → List Char
  | [] => []
  | c :: cs => escapeChar c ++ escString cs

/-- A JSON string literal for `s`. -/
def encodeStringChars (s : String) : List Char :=
  '"' :: (escString s.data ++ [ '"' ])

/-- Comma-separated JSON string literals, as `JSON.stringify` produces for
array elements. -/
def encodeItemsChars : List String → List Char
  | [] => []
  | [s] => encodeStringChars s
  | s :: l => encodeStringChars s ++ ',' :: encodeItemsChars l

/-- Output of `JSON.stringify` on an array of strings. -/
def stringifyChars (l : List String) : List Char :=
  '[' :: (encodeItemsChars l ++ [ ']' ])

/-- The function `saveHistory` (src/index.js, lines 111-113): the file content
written for a history list. -/
def saveHistory (history : List String) : String :=
  String.mk (stringifyChars history)

/-- JSON insignificant whitespace. -/
def isWs (c : Char) : Bool :=
  c = ' ' || c = '\t' || c = '\n' || c = '\r'

/-- Parser state for JSON texts denoting arrays of strings. -/
inductive PState where
  | start
  | expectFirst
  | expectItem
  | inString (acc : List Char)
  | inEscape (acc : List Char)
  | inHex (acc : List Char) (ds : List Char)
  | afterItem
  | done
  | failed
  deriving DecidableEq, Repr

/-- One step of the JSON string-array parser. -/
def stepChar : PState × List String → Char → PState × List String
  | (PState.start, items), c =>
    if isWs c then (PState.start, items)
    else if c = '[' then (PState.expectFirst, items)
    else (PState.failed, items)
  | (PState.expectFirst, items), c =>
    if isWs c then (PState.expectFirst, items)
    else if c = ']' then (PState.done, items)
    else if c = '"' then (PState.inString [], items)
    else (PState.failed, items)
  | (PState.expectItem, items), c =>
    if isWs c then (PState.expectItem, items)
    else if c = '"' then (PState.inString [], items)
    else (PState.failed, items)
  | (PState.inString acc, items), c =>
    if c = '"' then (PState.afterItem, items ++ [String.mk acc.reverse])
    else if c = '\\' then (PState.inEscape acc, items)
    else if c.toNat < 32 then (PState.failed, items)
    else (PState.inString (c :: acc), items)
  | (PState.inEscape acc, items), c =>
    if c = '"' then (PState.inString ( '"' :: acc), items)
    else if c = '\\' then (PState.inString ( '\\' :: acc), items)
    else if c = '/' then (PState.inString ( '/' :: acc), items)
    else if c = 'b' then (PState.inString ( '\x08' :: acc), items)
    else if c = 'f' then (PState.inString ( '\x0c' :: acc), items)
    else if c = 'n' then (PState.inString ( '\n' :: acc), items)
    else if c = 'r' then (PState.inString ( '\r' :: acc), items)
    else if c = 't' then (PState.inString ( '\t' :: acc), items)
    else if c = 'u' then (PState.inHex acc [], items)
    else (PState.failed, items)
  | (PState.inHex acc ds, items), c =>
    match hexVal c with
    | none => (PState.failed, items)
    | some _ =>
      if ds.length = 3 then
        let n := hexListVal (ds ++ [c])
        if Nat.isValidChar n then (PState.inString (Char.ofNat n :: acc), items)
        else (PState.failed, items)
      else (PState.inHex acc (ds ++ [c]), items)
  | (PState.afterItem, items), c =>
    if isWs c then (PState.afterItem, items)
    else if c = ',' then (PState.expectItem, items)
    else if c = ']' then (PState.done, items)
    else (PState.failed, items)
  | (PState.done, items), c =>
    if isWs c then (PState.done, items) else (PState.failed, items)
  | (PState.failed, items), _ => (PState.failed, items)

/-- Parse a JSON text as an array of strings; `none` models a `JSON.parse`
failure on this fragment. -/
def parseHistory (input : List Char) : Option (List String) :=
  match input.foldl stepChar (PState.start, []) with
  | (PState.done, items) => some items
  | _ => none

/-- History load (src/index.js, lines 181-187): `require(HISTORY_FILE)`
parses the file content as JSON; a failure raises (and is caught by the
caller, which substitutes the default empty history). -/
def loadHistory (content : String) : Option (List String) :=
  parseHistory content.data

/-! ## Supporting lemmas -/

theorem workerPortAfter_eq (n : Nat) : workerPortAfter n = 2501 + n := by
  induction n with
  | zero => rfl
  | succ m ih =>
    simp [workerPortAfter, incrementDebugPort, getWorkerDebugPort, ih]
    omega

theorem all_pairs_closed (conns : List ProxyPair) :
    ((closeDebuggerConnections conns).1.all
      fun p => !p.localOpen && !p.workerOpen && !p.piped) = true := by
  induction conns with
  | nil => rfl
  | cons p ps ih => simp [closeDebuggerConnections, closeDebuggerConnection] at *

theorem modifyPair_getElem_self (conns : List ProxyPair) (i : Nat) :
    (modifyPair conns i)[i]? = (conns[i]?).map closeDebuggerConnection := by
  induction conns generalizing i with
  | nil => simp [modifyPair]
  | cons p ps ih =>
    cases i with
    | zero => simp [modifyPair]
    | succ n => simp [modifyPair, ih]

theorem modifyPair_getElem_ne (conns : List ProxyPair) (i j : Nat) (h : j ≠ i) :
    (modifyPair conns i)[j]? = conns[j]? := by
  induction conns generalizing i j with
  | nil => simp [modifyPair]
  | cons p ps ih =>
    cases i with
    | zero =>
      cases j with
      | zero => exact absurd rfl h
      | succ m => simp [modifyPair]
    | succ n =>
      cases j with
      | zero => simp [modifyPair]
      | succ m => simp [modifyPair, ih n m (by omega)]

theorem hexVal_hexDigit (n : Nat) (h : n < 16) : hexVal (hexDigit n) = some n := by
  interval_cases n <;> decide

theorem hexListVal_00 (x y : Nat) (hx : x < 16) (hy : y < 16) :
    hexListVal [ '0', '0', hexDigit x, hexDigit y ] = 16 * x + y := by
  have h0 : hexVal '0' = some 0 := by decide
  simp [hexListVal, hexVal_hexDigit x hx, hexVal_hexDigit y hy, h0]
  omega

theorem foldl_stepChar_escapeChar (c : Char) (acc : List Char) (items : List String) :
    List.foldl stepChar (PState.inString acc, items) (escapeChar c) =
      (PState.inString (c :: acc), items) := by
  by_cases h1 : c = '"'
  · subst h1; rfl
  by_cases h2 : c = '\\'
  · subst h2; rfl
  by_cases h3 : c = '\x08'
  · subst h3; rfl
  by_cases h4 : c = '\t'
  · subst h4; rfl
  by_cases h5 : c = '\n'
  · subst h5; rfl
  by_cases h6 : c = '\x0c'
  · subst h6; rfl
  by_cases h7 : c = '\r'
  · subst h7; rfl
  by_cases h8 : c.toNat < 32
  · have hhi : c.toNat / 16 < 16 := by omega
    have hlo : c.toNat % 16 < 16 := Nat.mod_lt _ (by omega)
    have hv1 := hexVal_hexDigit _ hhi
    have hv2 := hexVal_hexDigit _ hlo
    have e1 : escapeChar c =
        [ '\\', 'u', '0', '0', hexDigit (c.toNat / 16), hexDigit (c.toNat % 16) ] := by
      rw [escapeChar, if_neg h1, if_neg h2, if_neg h3, if_neg h4, if_neg h5, if_neg h6,
        if_neg h7, if_pos h8]
    rw [e1,
      show [ '\\', 'u', '0', '0', hexDigit (c.toNat / 16), hexDigit (c.toNat % 16) ] =
        [ '\\', 'u', '0', '0' ] ++ [hexDigit (c.toNat / 16), hexDigit (c.toNat % 16) ]
        from rfl,
      List.foldl_append,
      show List.foldl stepChar (PState.inString acc, items) [ '\\', 'u', '0', '0' ] =
        (PState.inHex acc [ '0', '0' ], items) from rfl]
    simp only [List.foldl_cons, List.foldl_nil]
    simp [stepChar, hv1, hv2, hexListVal_00 _ _ hhi hlo]
    have hval : Nat.isValidChar (16 * (c.toNat / 16) + c.toNat % 16) := by
      rw [Nat.div_add_mod]
      exact Or.inl (by omega)
    rw [if_pos hval]
    rw [show 16 * (c.toNat / 16) + c.toNat % 16 = c.toNat from Nat.div_add_mod _ _]
    simp
  · have e1 : escapeChar c = [c] := by
      rw [escapeChar, if_neg h1, if_neg h2, if_neg h3, if_neg h4, if_neg h5, if_neg h6,
        if_neg h7, if_neg h8]
    rw [e1]
    simp [stepChar, h1, h2, h8]

theorem foldl_stepChar_escString (cs : List Char) (acc : List Char) (items : List String) :
    List.foldl stepChar (PState.inString acc, items) (escString cs) =
      (PState.inString (cs.reverseAux acc), items) := by
  induction cs generalizing acc with
  | nil => rfl
  | cons c cs ih =>
    rw [escString, List.foldl_append, foldl_stepChar_escapeChar]
    exact ih (c :: acc)

theorem foldl_stepChar_encodeString (s : String) (st : PState) (items : List String)
    (hst : st = PState.expectFirst ∨ st = PState.expectItem) :
    List.foldl stepChar (st, items) (encodeStringChars s) =
      (PState.afterItem, items ++ [s]) := by
  have hopen : stepChar (st, items) '"' = (PState.inString [], items) := by
    rcases hst with h | h <;> subst h <;> rfl
  rw [encodeStringChars, List.foldl_cons, hopen, List.foldl_append,
    foldl_stepChar_escString]
  show (PState.afterItem, items ++ [String.mk (s.data.reverseAux []).reverse]) =
    (PState.afterItem, items ++ [s])
  simp

theorem foldl_stepChar_items (l : List String) (st : PState) (items : List String)
    (hne : l ≠ []) (hst : st = PState.expectFirst ∨ st = PState.expectItem) :
    List.foldl stepChar (st, items) (encodeItemsChars l ++ [ ']' ]) =
      (PState.done, items ++ l) := by
  induction l generalizing st items with
  | nil => exact absurd rfl hne
  | cons s ls ih =>
    cases ls with
    | nil =>
      rw [show encodeItemsChars [s] = encodeStringChars s from rfl,
        List.foldl_append, foldl_stepChar_encodeString s st items hst]
      rfl
    | cons s2 ls2 =>
      rw [show encodeItemsChars (s :: s2 :: ls2) =
          encodeStringChars s ++ ',' :: encodeItemsChars (s2 :: ls2) from rfl]
      rw [show (encodeStringChars s ++ ',' :: encodeItemsChars (s2 :: ls2)) ++ [ ']' ] =
          encodeStringChars s ++ (',' :: (encodeItemsChars (s2 :: ls2) ++ [ ']' ]))
          by simp]
      rw [List.foldl_append, foldl_stepChar_encodeString s st items hst, List.foldl_cons]
      rw [show stepChar (PState.afterItem, items ++ [s]) ',' =
          (PState.expectItem, items ++ [s]) from rfl]
      rw [ih PState.expectItem (items ++ [s]) (by simp) (Or.inr rfl)]
      simp

theorem history_roundtrip_chars (l : List String) :
    parseHistory (stringifyChars l) = some l := by
  cases l with
  | nil => rfl
  | cons s ls =>
    rw [parseHistory, stringifyChars, List.foldl_cons,
      show stepChar (PState.start, ([] : List String)) '[' =
        (PState.expectFirst, []) from rfl,
      foldl_stepChar_items (s :: ls) PState.expectFirst [] (by simp) (Or.inl rfl)]
    simp

theorem reload_spawn_count (b : Bool) (w : StallResolution) :
    (reloadMessageEffects ++ exitCycleEffects b w).count Effect.createWorker = 1 := by
  cases b <;> cases w <;>
    simp [reloadMessageEffects, exitCycleEffects, clusterExitImmediate,
      onKeyPressEffects, onFileChangedEffects, List.count_cons, List.count_append]

/-! ## Claim theorems -/

/-- C1, counterexample: the claim says a crash (`managedExit = false`) never
triggers an immediate respawn, but the exit handler's synchronous effects for
`managedExit = false` do contain an immediate `createWorker`
(src/index.js, lines 326-328). -/
theorem crash_exit_spawns_immediately :
    Effect.createWorker ∈ clusterExitImmediate false := by decide

/-- C1, amended: the stall-for-watch-event-or-keypress policy applies to exits
with `managedExit = true`, not to crashes: for a managed exit no replacement is
spawned synchronously and a replacement is spawned only by the keypress or
file-change continuation; for `managedExit = false` the handler spawns a
replacement immediately. -/
theorem exit_handler_respawn_policy :
    (Effect.createWorker ∉ clusterExitImmediate true) ∧
    (Effect.createWorker ∈ onKeyPressEffects) ∧
    (∀ ev nm, Effect.createWorker ∈ onFileChangedEffects ev nm) ∧
    (Effect.createWorker ∈ clusterExitImmediate false) := by
  refine ⟨by decide, by decide, ?_, by decide⟩
  intro ev nm
  simp [onFileChangedEffects]

/-- C2: a handled `reload` message leads to exactly one `createWorker` across
the message handler plus the subsequent worker-exit episode (whichever branch
and whichever awaited event resolves it); the spawn assigns the next debug
port, which is strictly greater than the previous one; and the debug-port
counter is strictly monotone from its base 2501 and never repeats a value. -/
theorem reload_single_respawn_port_monotone :
    (∀ (b : Bool) (w : StallResolution),
      (reloadMessageEffects ++ exitCycleEffects b w).count Effect.createWorker = 1) ∧
    (∀ p : Nat, (spawnWorkerPort p).1 = p + 1 ∧ p < (spawnWorkerPort p).1) ∧
    workerPortAfter 0 = 2501 ∧
    (∀ m n : Nat, m < n → workerPortAfter m < workerPortAfter n) ∧
    (∀ m n : Nat, workerPortAfter m = workerPortAfter n → m = n) := by
  refine ⟨reload_spawn_count, ?_, rfl, ?_, ?_⟩
  · intro p
    exact ⟨rfl, by simp [spawnWorkerPort, incrementDebugPort, getWorkerDebugPort]⟩
  · intro m n h
    rw [workerPortAfter_eq, workerPortAfter_eq]
    omega
  · intro m n h
    rw [workerPortAfter_eq, workerPortAfter_eq] at h
    omega

/-- C2, witness: the reload cycle with an unmanaged exit spawns exactly one
worker, and the counter after one increment is below the counter after
three. -/
theorem reload_single_respawn_port_monotone_witness :
    (reloadMessageEffects ++ exitCycleEffects false StallResolution.keypress).count
      Effect.createWorker = 1 ∧
    workerPortAfter 1 < workerPortAfter 3 :=
  ⟨reload_single_respawn_port_monotone.1 false StallResolution.keypress,
   reload_single_respawn_port_monotone.2.2.2.1 1 3 (by decide)⟩

/-- C3: a handled `shutdown` message terminates the supervisor
(`processExit` occurs); the worker is killed before the proxy teardown, which
happens before the supervisor exits; at the moment of `processExit` the
tracked set is empty; and the teardown closes every tracked pair. -/
theorem shutdown_terminates_with_proxies_closed (conns : List ProxyPair) :
    Effect.processExit ∈ shutdownCycleEffects ∧
    shutdownCycleEffects.indexOf Effect.killWorker <
      shutdownCycleEffects.indexOf Effect.closeAllDebuggerConnections ∧
    shutdownCycleEffects.indexOf Effect.closeAllDebuggerConnections <
      shutdownCycleEffects.indexOf Effect.processExit ∧
    trackedAfter conns (shutdownCycleEffects.takeWhile
      (fun e => e != Effect.processExit)) = [] ∧
    ((closeDebuggerConnections conns).1.all
      fun p => !p.localOpen && !p.workerOpen && !p.piped) = true :=
  ⟨by decide, by decide, by decide, rfl, all_pairs_closed conns⟩

/-- C4: saving a history list (`JSON.stringify` to the history file) and
loading it back (JSON parse on `require`) reproduces the identical ordered
list of strings. -/
theorem history_save_load_roundtrip (l : List String) :
    loadHistory (saveHistory l) = some l := by
  rw [loadHistory, saveHistory]
  exact history_roundtrip_chars l

/-- C5: an intercepted diagnostic line while not closing emits one write of
carriage return, prompt-length-plus-buffered-input-length blanks, carriage
return, then one write of the chunk verbatim plus a newline, then schedules
the debounced prompt-plus-input redraw after 100 time units (inside the 50-100
window), cancelling exactly any previously scheduled redraw; in particular
with buffered input `he` and chunk `worker ready` the erase covers
prompt length + 2 blanks and the redraw reproduces prompt ++ he. -/
theorem diagnostic_line_erase_emit_redraw (prompt line data : String)
    (scheduled : Option Nat) :
    (onLine false prompt line scheduled data).writes =
      ["\r" ++ wipeLine line.length prompt.length ++ "\r", data ++ "\n"] ∧
    wipeLine line.length prompt.length =
      String.mk (List.replicate (prompt.length + line.length) ' ') ∧
    (onLine false prompt line scheduled data).scheduled = some 100 ∧
    (50 ≤ 100 ∧ 100 ≤ 100) ∧
    (onLine false prompt line scheduled data).cancelledPrevious = scheduled.isSome ∧
    displayPromptOutput prompt line = prompt ++ line ∧
    (onLine false prompt "he" scheduled "worker ready").writes =
      ["\r" ++ wipeLine 2 prompt.length ++ "\r", "worker ready\n"] ∧
    displayPromptOutput prompt "he" = prompt ++ "he" := by
  refine ⟨rfl, ?_, rfl, by omega, rfl, rfl, rfl, rfl⟩
  rw [wipeLine, Nat.add_comm]

/-- C6, counterexample: with an empty buffered line the handler still emits an
erase sequence (covering the prompt), so the output is not only the diagnostic
text: at prompt of length 3, the first write is an erase sequence. -/
theorem empty_line_still_erases_prompt :
    (onLine false ">> " "" none "worker ready").writes ≠ ["worker ready\n"] ∧
    (onLine false ">> " "" none "worker ready").writes =
      ["\r   \r", "worker ready\n"] :=
  ⟨by decide, by decide⟩

/-- C6, amended: a diagnostic write with no pending operator input emits an
erase sequence covering the prompt only (carriage return, prompt-length
blanks, carriage return), then the diagnostic text, then schedules the
debounced prompt redraw. -/
theorem empty_line_erase_covers_prompt_only (prompt data : String)
    (scheduled : Option Nat) :
    (onLine false prompt "" scheduled data).writes =
      ["\r" ++ wipeLine 0 prompt.length ++ "\r", data ++ "\n"] ∧
    (onLine false prompt "" scheduled data).scheduled = some 100 :=
  ⟨rfl, rfl⟩

/-- C7, counterexample: the claim says a connection-refused error closes the
pair quietly, but the handler's `ECONNREFUSED` branch performs no teardown at
all — the tracked pair stays in the set, open and distinct from its closed
form. -/
theorem econnrefused_leaves_pair_untouched :
    debuggerErrorHandler "ECONNREFUSED" [freshPair] 0 = ([], [freshPair]) ∧
    freshPair.localOpen = true ∧ freshPair.workerOpen = true ∧
    freshPair ≠ closeDebuggerConnection freshPair :=
  ⟨rfl, rfl, rfl, by decide⟩

/-- C7, amended: on `ECONNREFUSED` the worker-side error handler does nothing
(no log, tracked state unchanged, pair not torn down); on any other error code
it logs exactly one warning and tears down exactly the affected pair, leaving
every other tracked pair untouched. -/
theorem worker_socket_error_policy (code : String) (conns : List ProxyPair)
    (i : Nat) (h : code ≠ "ECONNREFUSED") :
    debuggerErrorHandler "ECONNREFUSED" conns i = ([], conns) ∧
    (debuggerErrorHandler code conns i).1 =
      [LogEvent.warning "Error raised on the connection to the worker debug port"] ∧
    (debuggerErrorHandler code conns i).2 = modifyPair conns i ∧
    (debuggerErrorHandler code conns i).2[i]? =
      (conns[i]?).map closeDebuggerConnection ∧
    (∀ j, j ≠ i → (debuggerErrorHandler code conns i).2[j]? = conns[j]?) := by
  refine ⟨rfl, ?_, ?_, ?_, ?_⟩
  · simp [debuggerErrorHandler, h]
  · simp [debuggerErrorHandler, h]
  · simp [debuggerErrorHandler, h, modifyPair_getElem_self]
  · intro j hj
    simp [debuggerErrorHandler, h, modifyPair_getElem_ne conns i j hj]

/-- C7, witness: a concrete `ECONNRESET` on the only tracked pair logs the
warning and closes that pair. -/
theorem worker_socket_error_policy_witness :
    (debuggerErrorHandler "ECONNRESET" [freshPair] 0).1 =
      [LogEvent.warning "Error raised on the connection to the worker debug port"] ∧
    (debuggerErrorHandler "ECONNRESET" [freshPair] 0).2[0]? =
      some (closeDebuggerConnection freshPair) := by
  have h := worker_socket_error_policy "ECONNRESET" [freshPair] 0 (by decide)
  refine ⟨h.2.1, ?_⟩
  rw [h.2.2.2.1]
  rfl

/-- C8: an incoming debug-proxy connection while the worker debug port is
falsy is ended immediately: no outbound connection is dialed and the tracked
set is unchanged. -/
theorem proxy_unknown_port_ends_connection (conns : List ProxyPair) :
    (proxyConnectionHandler 0 conns).incomingEnded = true ∧
    (proxyConnectionHandler 0 conns).workerConnection = none ∧
    (proxyConnectionHandler 0 conns).tracked = conns :=
  ⟨rfl, rfl, rfl⟩

/-- C9: every reachable counter state yields `getWorkerDebugPort` at least
2501; `incrementDebugPort` strictly increases the counter by one; the port is
therefore never zero (falsy), so the debug proxy's no-port branch is
unreachable: the handler always dials and tracks a fresh pair. -/
theorem worker_debug_port_positive :
    (∀ n : Nat, 2501 ≤ getWorkerDebugPort (workerPortAfter n)) ∧
    (∀ w : Nat, (incrementDebugPort w).2 = w + 1 ∧
      getWorkerDebugPort w < (incrementDebugPort w).1) ∧
    (∀ n : Nat, getWorkerDebugPort (workerPortAfter n) ≠ 0) ∧
    (∀ (n : Nat) (conns : List ProxyPair),
      (proxyConnectionHandler (getWorkerDebugPort (workerPortAfter n))
        conns).incomingEnded = false ∧
      (proxyConnectionHandler (getWorkerDebugPort (workerPortAfter n))
        conns).tracked = conns ++ [freshPair]) := by
  have hpos : ∀ n : Nat, getWorkerDebugPort (workerPortAfter n) ≠ 0 := by
    intro n
    rw [getWorkerDebugPort, workerPortAfter_eq]
    omega
  refine ⟨?_, ?_, hpos, ?_⟩
  · intro n
    rw [getWorkerDebugPort, workerPortAfter_eq]
    omega
  · intro w
    exact ⟨rfl, by simp [incrementDebugPort, getWorkerDebugPort]⟩
  · intro n conns
    rw [proxyConnectionHandler, if_neg (hpos n)]
    exact ⟨rfl, rfl⟩

/-- C10: `closeDebuggerConnections` always leaves the tracked set empty, and a
second call on the result performs zero per-pair close operations and leaves
the set empty. -/
theorem close_debugger_connections_idempotent (conns : List ProxyPair) :
    (closeDebuggerConnections conns).2 = [] ∧
    closeDebuggerConnections (closeDebuggerConnections conns).2 = ([], []) :=
  ⟨rfl, rfl⟩

end MageConsole

